import Mathlib

/-!
Verification of the session and navigation orchestrator of the
industrial telemetry dashboard client.  The development shallowly embeds
the `AuthSystem` class of `auth.js`, the `IndustrialMonitorApp` class of
`app.js`, and the static `config.js` object as pure state-passing
functions over explicit state records.  DOM updates, console logging,
sounds and toast rendering are cosmetic external effects and are not part
of the embedded state; everything the claims speak about (session fields,
persisted storage keys, navigation decisions, the module registry) is.
-/

namespace config

/-- config.js `ROLES.OPERATOR`. -/
def ROLES_OPERATOR : String := "operator"

/-- config.js `ROLES.SUPERVISOR`. -/
def ROLES_SUPERVISOR : String := "supervisor"

/-- config.js `THEMES.OPERATOR`. -/
def THEMES_OPERATOR : String := "operator"

/-- config.js `THEMES.SUPERVISOR`. -/
def THEMES_SUPERVISOR : String := "supervisor"

end config

/-- The user record held by the session (`this.user` in auth.js). -/
structure User where
  id : String
  username : String
  role : String
  name : String
  permissions : List String
  deriving Repr, DecidableEq

/-- The localStorage keys owned by the authentication system; `none`
models an absent key.  `iot_last_login` holds the timestamp (milliseconds
since the epoch) denoted by the stored ISO-8601 string. -/
structure Storage where
  iot_token : Option String
  iot_user : Option User
  iot_last_login : Option Int
  iot_theme : Option String
  deriving Repr, DecidableEq

/-- The mutable fields of the `AuthSystem` class (auth.js) that carry the
session: bearer token, user record, current theme, and the persisted
storage the class reads and writes. -/
structure AuthState where
  token : Option String
  user : Option User
  currentTheme : String
  storage : Storage
  deriving Repr, DecidableEq

/-- JavaScript truthiness of a nullable string (`!!this.token` in
auth.js): `null` and the empty string are falsy. -/
def truthyStr : Option String → Bool
  | none => false
  | some s => s != ""

/-- JavaScript truthiness of a nullable object (`!!this.user` in
auth.js): any object is truthy, `null` is falsy. -/
def truthyObj : Option User → Bool
  | none => false
  | some _ => true

/-- JS `a || b` for a nullable string `a`: `null`/`undefined` and `""`
are falsy, so they select `b`. -/
def jsOrStr (a : Option String) (b : String) : String :=
  match a with
  | none => b
  | some s => if s = "" then b else s

/-- Per-character ASCII lowering, the fragment of JS
`String.prototype.toLowerCase()` exercised by the credential-table keys. -/
def jsCharToLower (c : Char) : Char :=
  if 65 ≤ c.toNat ∧ c.toNat ≤ 90 then Char.ofNat (c.toNat + 32) else c

/-- JS `username.toLowerCase()` as used by auth.js `login`. -/
def jsToLower (s : String) : String :=
  String.mk (s.data.map jsCharToLower)

/-- One entry of the auth.js `DEMO_USERS` table. -/
structure DemoUser where
  role : String
  password : String
  id : String
  name : String
  permissions : List String
  deriving Repr, DecidableEq

/-- The user object of a successful backend response (`data.user` in
auth.js `login`); `name` and `permissions` may be absent. -/
structure RemoteUser where
  id : String
  username : String
  role : String
  name : Option String
  permissions : Option (List String)
  deriving Repr, DecidableEq

/-- The payload of a successful backend response,
`{ access_token, user }`. -/
structure RemotePayload where
  access_token : String
  user : RemoteUser
  deriving Repr, DecidableEq

/-- Outcome of the remote authentication attempt inside auth.js `login`:
either `response.ok` with a parsed payload, or any failure — a non-ok
status, a network error, or the 10-second timeout — all of which the
source treats uniformly by falling through to the demo-credential
fallback. -/
inductive RemoteOutcome where
  | ok (data : RemotePayload)
  | failure
  deriving Repr, DecidableEq

/-- The result object returned by auth.js `login`. -/
structure LoginResult where
  success : Bool
  error : Option String
  deriving Repr, DecidableEq

namespace AuthSystem

/-- auth.js `DEMO_USERS`: the static fallback credential table, keyed by
lower-cased username. -/
def DEMO_USERS : String → Option DemoUser
  | "operador" => some
      ⟨config.ROLES_OPERATOR, "op123", "op_1", "Operador Demo",
        ["view_dashboard", "view_alerts"]⟩
  | "supervisor" => some
      ⟨config.ROLES_SUPERVISOR, "sup123", "sup_1", "Supervisor Demo",
        ["view_dashboard", "view_alerts", "manage_users", "configure_system"]⟩
  | _ => none

/-- auth.js `isAuthenticated()`: `return !!this.token && !!this.user;`. -/
def isAuthenticated (s : AuthState) : Bool :=
  truthyStr s.token && truthyObj s.user

/-- auth.js `isTokenExpired()`: a missing `iot_last_login` key is
expired; otherwise `hoursSinceLogin = (currentTime - loginTime) /
(1000*60*60)` and the token is expired when `hoursSinceLogin > 24`.  The
JS floating-point quotient is modelled by exact rational division. -/
def isTokenExpired (s : AuthState) (now : Int) : Bool :=
  match s.storage.iot_last_login with
  | none => true
  | some loginTime =>
    let hoursSinceLogin : ℚ := ((now - loginTime : Int) : ℚ) / (1000 * 60 * 60)
    decide (hoursSinceLogin > 24)

/-- auth.js `hasRole(role)`: `this.user?.role === role`. -/
def hasRole (s : AuthState) (role : String) : Bool :=
  match s.user with
  | none => false
  | some u => u.role == role

/-- auth.js `saveAuthData()`: persists the token, the user, and the
current time as the last-login timestamp. -/
def saveAuthData (s : AuthState) (now : Int) : AuthState :=
  { s with storage :=
      { s.storage with
          iot_token := s.token,
          iot_user := s.user,
          iot_last_login := some now } }

/-- auth.js `login(username, password)`; `remote` is the outcome of the
backend attempt and `now` models `Date.now()`.  On remote success the
session is populated from the payload (defaulting `name` to the
submitted username and `permissions` to empty) and persisted.  On any
remote failure the static `DEMO_USERS` table is consulted under the
lower-cased username with an exact password match; a hit synthesizes a
session whose token is tagged `DEMO_TOKEN_`.  Otherwise the call fails
with the user-facing message and the state is untouched.  (The
`stateStore.updateState` and DOM-update calls on the success paths are
external effects outside the embedded state.) -/
def login (s : AuthState) (remote : RemoteOutcome) (username password : String)
    (now : Int) : LoginResult × AuthState :=
  match remote with
  | .ok data =>
    let s1 : AuthState :=
      { s with
          token := some data.access_token,
          user := some
            ⟨data.user.id, data.user.username, data.user.role,
              jsOrStr data.user.name username,
              data.user.permissions.getD []⟩ }
    (⟨true, none⟩, saveAuthData s1 now)
  | .failure =>
    match DEMO_USERS (jsToLower username) with
    | some demoUser =>
      if demoUser.password = password then
        let s1 : AuthState :=
          { s with
              user := some
                ⟨demoUser.id, username, demoUser.role, demoUser.name,
                  demoUser.permissions⟩,
              token := some ("DEMO_TOKEN_" ++ username ++ "_" ++ toString now) }
        (⟨true, none⟩, saveAuthData s1 now)
      else
        (⟨false, some "Credenciales inválidas o backend fuera de línea"⟩, s)
    | none =>
      (⟨false, some "Credenciales inválidas o backend fuera de línea"⟩, s)

/-- auth.js `toggleTheme()`: anyone who is not a logged-in supervisor
only triggers a warning toast and the state is untouched; a supervisor
flips the theme between the operator and supervisor themes and persists
it under `iot_theme`. -/
def toggleTheme (s : AuthState) : AuthState :=
  if !truthyObj s.user || !hasRole s config.ROLES_SUPERVISOR then s
  else
    let newTheme :=
      if s.currentTheme = config.THEMES_OPERATOR then config.THEMES_SUPERVISOR
      else config.THEMES_OPERATOR
    { s with
        currentTheme := newTheme,
        storage := { s.storage with iot_theme := some newTheme } }

end AuthSystem

namespace IndustrialMonitorApp

/-- A page element of the hosting markup, as app.js `navigateTo` sees it
through the DOM: its id (the element `id` minus the `-page` suffix),
whether its class list contains `supervisor-only`, and whether its class
list contains `active`. -/
structure Page where
  id : String
  supervisorOnly : Bool
  active : Bool
  deriving Repr, DecidableEq

/-- A feature module held in the `this.modules` registry of app.js.
`hasDestroy` models `typeof module.destroy === 'function'`;
`destroyFails` models a `destroy()` invocation that throws. -/
structure Module where
  name : String
  hasDestroy : Bool
  destroyFails : Bool
  deriving Repr, DecidableEq

/-- The fields of the `IndustrialMonitorApp` class (app.js) read and
written by the navigation and cleanup paths.  `hash` is the location
fragment without the leading `#`. -/
structure AppState where
  user : Option User
  pages : List Page
  hash : String
  wsService : Option Module
  dashboardController : Option Module
  modules : List Module
  deriving Repr, DecidableEq

/-- `document.getElementById(targetPageId + "-page")` resolved against
the declared pages. -/
def findPage (pages : List Page) (pid : String) : Option Page :=
  pages.find? (fun p => p.id == pid)

/-- The test `this.user?.role !== config.ROLES.SUPERVISOR` of
app.js `navigateTo` step 2 (with a null user, `undefined` compares
unequal to the supervisor role, so the test is true). -/
def notSupervisor (user : Option User) : Bool :=
  match user with
  | none => true
  | some u => u.role != config.ROLES_SUPERVISOR

/-- The externally observable decision of one app.js `navigateTo` call:
a redirect (assignment to `window.location.hash`), the early return when
the target page is already active, or the activation of the target page
followed by `initializePageModules(targetPageId)` — the per-view module
hook runs exactly on the `activate` outcome. -/
inductive NavAction where
  | redirect (target : String)
  | noop
  | activate (pageId : String)
  deriving Repr, DecidableEq

/-- app.js `navigateTo(targetPageId)` as a pure transition, returning
its decision together with the updated state.  In source order: (1) a
non-login target with no user redirects to `#login`; (2) a declared
`supervisor-only` target with a non-supervisor user redirects to
`#dashboard`; (3) a target that is already active returns with no state
change; (4) otherwise a declared target is activated (every other page
is deactivated) and its page modules are initialized, while an
undeclared target redirects to `#dashboard`. -/
def navigateTo (st : AppState) (targetPageId : String) : NavAction × AppState :=
  if targetPageId != "login" && !truthyObj st.user then
    (.redirect "login", { st with hash := "login" })
  else
    match findPage st.pages targetPageId with
    | some targetPage =>
      if targetPage.supervisorOnly && notSupervisor st.user then
        (.redirect "dashboard", { st with hash := "dashboard" })
      else if targetPage.active then
        (.noop, st)
      else
        (.activate targetPageId,
          { st with
              pages := st.pages.map (fun p => { p with active := p.id == targetPageId }) })
    | none =>
      (.redirect "dashboard", { st with hash := "dashboard" })

/-- The startup action taken by app.js `setupRouting` right after it
installs the hashchange listener. -/
inductive StartupAction where
  | navigate (pageId : String)
  | setHashLogin
  | idle
  deriving Repr, DecidableEq

/-- The initial resolution of app.js `setupRouting`:
`initialHash = window.location.hash.substring(1) || 'dashboard'`; with a
user present, navigate to `initialHash`; with no user, assign
`window.location.hash = '#login'` only when the fragment is absent or is
exactly `dashboard`, and otherwise do nothing. -/
def setupRoutingInitial (user : Option User) (fragment : String) : StartupAction :=
  let initialHash := if fragment = "" then "dashboard" else fragment
  if truthyObj user then .navigate initialHash
  else if fragment = "" || fragment = "dashboard" then .setHashLogin
  else .idle

/-- `destroy()` of one registered module, which may throw. -/
def destroyModule (m : Module) : Except String Unit :=
  if m.destroyFails then .error m.name else .ok ()

/-- `if (module && typeof module.destroy === 'function') { try {
module.destroy(); } catch (err) { console.warn(err); } }` for one
registry entry: the invocation is recorded whether or not it throws, and
a thrown error is swallowed. -/
def tryDestroy (m : Module) : List String :=
  if m.hasDestroy then
    match destroyModule m with
    | .ok _ => [m.name]
    | .error _ => [m.name]
  else []

/-- app.js `cleanup()`: best-effort `wsService.disconnect()` and
`dashboardController.destroy()` (each wrapped in try/catch, state not
modified), then `destroy()` on every registry module in registration
order — each invocation wrapped in try/catch — then `modules.clear()`
and `stateStore.reset()` (the store is external).  The second component
is the trace of registry modules whose `destroy()` was invoked. -/
def cleanup (st : AppState) : AppState × List String :=
  let regLog := st.modules.foldl (fun acc m => acc ++ tryDestroy m) []
  ({ st with modules := [] }, regLog)

end IndustrialMonitorApp

/-! Concrete fixtures used by witnesses and counterexamples. -/

/-- Storage with every key absent. -/
def emptyStorage : Storage := ⟨none, none, none, none⟩

/-- The user produced by a fallback login as `operador`. -/
def operadorUser : User :=
  ⟨"op_1", "operador", "operator", "Operador Demo",
    ["view_dashboard", "view_alerts"]⟩

/-- A logged-out auth state: no token, no user, default theme, empty
storage. -/
def loggedOutState : AuthState := ⟨none, none, "operator", emptyStorage⟩

/-- A session whose token is the empty string — non-null, but falsy in
JavaScript — with a user record present. -/
def emptyTokenState : AuthState :=
  ⟨some "", some operadorUser, "operator", emptyStorage⟩

/-- An authenticated operator auth state with a demo token. -/
def operadorAuthState : AuthState :=
  ⟨some "DEMO_TOKEN_operador_0", some operadorUser, "operator",
    ⟨some "DEMO_TOKEN_operador_0", some operadorUser, some 0, none⟩⟩

/-- An authenticated session whose storage has no `iot_last_login` key. -/
def noStampState : AuthState :=
  ⟨some "tok", some operadorUser, "operator",
    ⟨some "tok", some operadorUser, none, none⟩⟩

/-- An authenticated session whose `iot_last_login` is the epoch. -/
def oldStampState : AuthState :=
  ⟨some "tok", some operadorUser, "operator",
    ⟨some "tok", some operadorUser, some 0, none⟩⟩

/-! Claim C1. -/

/-- C1 counterexample: a session whose token is the empty string (which
is non-null) and whose user record is non-null is nevertheless reported
as not authenticated, because the source tests JavaScript truthiness
(`!!this.token`), under which the empty string is falsy.  So
`isAuthenticated()` is not equivalent to `token ≠ null ∧ user ≠ null`. -/
theorem c1_empty_token_refutes_iff :
    ¬ (AuthSystem.isAuthenticated emptyTokenState = true ↔
        (emptyTokenState.token ≠ none ∧ emptyTokenState.user ≠ none)) := by
  decide

/-- C1 amended: for every session state, `isAuthenticated()` returns
true if and only if the token is non-null and non-empty and the user
record is non-null. -/
theorem c1_isAuthenticated_iff (s : AuthState) :
    AuthSystem.isAuthenticated s = true ↔
      ((∃ t, s.token = some t ∧ t ≠ "") ∧ s.user ≠ none) := by
  cases htok : s.token with
  | none => simp [AuthSystem.isAuthenticated, truthyStr, htok]
  | some t =>
    cases huser : s.user with
    | none =>
      simp [AuthSystem.isAuthenticated, truthyStr, truthyObj, htok, huser]
    | some u =>
      simp [AuthSystem.isAuthenticated, truthyStr, truthyObj, htok, huser]

/-! Claim C2. -/

/-- A string with the `DEMO_TOKEN_` tag is never the empty string, so a
fallback token is truthy. -/
theorem demo_token_ne_empty (r : String) : "DEMO_TOKEN_" ++ r ≠ "" := by
  intro h
  have h2 : ("DEMO_TOKEN_" ++ r).data = "".data := congrArg String.data h
  rw [String.data_append] at h2
  simp at h2

/-- C2: for every `login(username, password)` call whose remote attempt
fails, if the lower-cased username is in the local credential table and
the password matches that entry exactly, then login succeeds, the
session becomes authenticated, the session user's role is the role from
the table — and the table maps `operador` (password `op123`) to the
operator role and `supervisor` (password `sup123`) to the supervisor
role — and the issued token carries the `DEMO_TOKEN_` tag that marks it
as locally generated rather than remote. -/
theorem c2_fallback_login (s : AuthState) (username password : String) (now : Int)
    (d : DemoUser) (hd : AuthSystem.DEMO_USERS (jsToLower username) = some d)
    (hp : d.password = password) :
    (AuthSystem.login s .failure username password now).1.success = true ∧
    AuthSystem.isAuthenticated (AuthSystem.login s .failure username password now).2 = true ∧
    ((AuthSystem.login s .failure username password now).2.user).map User.role = some d.role ∧
    (∃ rest, (AuthSystem.login s .failure username password now).2.token =
      some ("DEMO_TOKEN_" ++ rest)) ∧
    (AuthSystem.DEMO_USERS "operador").map DemoUser.role = some config.ROLES_OPERATOR ∧
    (AuthSystem.DEMO_USERS "operador").map DemoUser.password = some "op123" ∧
    (AuthSystem.DEMO_USERS "supervisor").map DemoUser.role = some config.ROLES_SUPERVISOR ∧
    (AuthSystem.DEMO_USERS "supervisor").map DemoUser.password = some "sup123" := by
  have hl : AuthSystem.login s .failure username password now =
      (⟨true, none⟩, AuthSystem.saveAuthData
        { s with
            user := some ⟨d.id, username, d.role, d.name, d.permissions⟩,
            token := some ("DEMO_TOKEN_" ++ username ++ "_" ++ toString now) } now) := by
    simp only [AuthSystem.login, hd, if_pos hp]
  rw [hl]
  refine ⟨rfl, ?_, rfl, ?_, rfl, rfl, rfl, rfl⟩
  · simp only [AuthSystem.isAuthenticated, AuthSystem.saveAuthData, truthyStr, truthyObj,
      Bool.and_true, bne_iff_ne, ne_eq, decide_eq_true_eq]
    exact demo_token_ne_empty (username ++ "_" ++ toString now)
  · refine ⟨username ++ ("_" ++ toString now), ?_⟩
    simp only [AuthSystem.saveAuthData]
    rw [String.append_assoc, String.append_assoc]

/-- C2 witness: with the remote attempt failing, `("operador", "op123")`
logs in with the operator role and a tagged token from a logged-out
state. -/
theorem c2_fallback_login_witness :
    (AuthSystem.login loggedOutState .failure "operador" "op123" 0).1.success = true ∧
    AuthSystem.isAuthenticated (AuthSystem.login loggedOutState .failure "operador" "op123" 0).2 = true ∧
    ((AuthSystem.login loggedOutState .failure "operador" "op123" 0).2.user).map User.role =
      some config.ROLES_OPERATOR ∧
    (∃ rest, (AuthSystem.login loggedOutState .failure "operador" "op123" 0).2.token =
      some ("DEMO_TOKEN_" ++ rest)) ∧
    (AuthSystem.DEMO_USERS "operador").map DemoUser.role = some config.ROLES_OPERATOR ∧
    (AuthSystem.DEMO_USERS "operador").map DemoUser.password = some "op123" ∧
    (AuthSystem.DEMO_USERS "supervisor").map DemoUser.role = some config.ROLES_SUPERVISOR ∧
    (AuthSystem.DEMO_USERS "supervisor").map DemoUser.password = some "sup123" :=
  c2_fallback_login loggedOutState "operador" "op123" 0
    ⟨config.ROLES_OPERATOR, "op123", "op_1", "Operador Demo",
      ["view_dashboard", "view_alerts"]⟩
    rfl rfl

/-! Claim C6. -/

/-- C6 counterexample: with the remote attempt failing and a wrong
password, `login` does fail, but the user-facing reason it carries is
the Spanish source string, not the English string the claim quotes. -/
theorem c6_reason_is_spanish_string :
    (AuthSystem.login loggedOutState .failure "operador" "wrong" 0).1.success = false ∧
    (AuthSystem.login loggedOutState .failure "operador" "wrong" 0).1.error ≠
      some "invalid credentials or backend unavailable" := by
  decide

/-- C6 amended: for every `login(username, password)` call in which the
remote attempt fails and the local fallback lookup fails (the
lower-cased username is absent from the table, or the password does not
match), login returns a failure result carrying the user-facing reason
`"Credenciales inválidas o backend fuera de línea"` (Spanish for
"invalid credentials or backend offline"), and the entire auth state —
session token, user, and every persisted storage key — is unchanged. -/
theorem c6_double_failure_unchanged (s : AuthState) (username password : String)
    (now : Int)
    (hfb : Option.all (fun d => d.password != password)
      (AuthSystem.DEMO_USERS (jsToLower username)) = true) :
    AuthSystem.login s .failure username password now =
      (⟨false, some "Credenciales inválidas o backend fuera de línea"⟩, s) := by
  cases hd : AuthSystem.DEMO_USERS (jsToLower username) with
  | none => simp [AuthSystem.login, hd]
  | some d =>
    rw [hd] at hfb
    have hne : d.password ≠ password := by simpa using hfb
    simp [AuthSystem.login, hd, hne]

/-- C6 witness: a wrong password for `operador` with the remote attempt
failing returns the failure result and leaves the logged-out state
untouched. -/
theorem c6_double_failure_unchanged_witness :
    AuthSystem.login loggedOutState .failure "operador" "wrong" 0 =
      (⟨false, some "Credenciales inválidas o backend fuera de línea"⟩,
        loggedOutState) :=
  c6_double_failure_unchanged loggedOutState "operador" "wrong" 0 (by decide)

/-! Claim C5. -/

/-- C5: for every session, `isTokenExpired()` returns true when the
last-login timestamp is absent, and returns true whenever more than 24
hours (86400000 ms) have elapsed since the recorded last-login
timestamp. -/
theorem c5_isTokenExpired_sound (s : AuthState) (now : Int) :
    (s.storage.iot_last_login = none → AuthSystem.isTokenExpired s now = true) ∧
    (∀ t, s.storage.iot_last_login = some t → now - t > 86400000 →
      AuthSystem.isTokenExpired s now = true) := by
  constructor
  · intro h
    simp [AuthSystem.isTokenExpired, h]
  · intro t ht hgt
    simp only [AuthSystem.isTokenExpired, ht]
    rw [decide_eq_true_iff]
    have hq : (86400000 : ℚ) < ((now - t : Int) : ℚ) := by exact_mod_cast hgt
    rw [gt_iff_lt, lt_div_iff₀ (by norm_num : (0 : ℚ) < 1000 * 60 * 60)]
    linarith

/-- C5 witness: a session with no stored last-login is expired at time
0, and a session whose last login was at the epoch is expired at
100000000 ms (about 27.8 hours later). -/
theorem c5_isTokenExpired_sound_witness :
    AuthSystem.isTokenExpired noStampState 0 = true ∧
    AuthSystem.isTokenExpired oldStampState 100000000 = true :=
  ⟨(c5_isTokenExpired_sound noStampState 0).1 rfl,
   (c5_isTokenExpired_sound oldStampState 100000000).2 0 rfl (by decide)⟩

/-! Claim C10. -/

/-- C10: whenever there is no current user, or the current user's role
is not supervisor, `toggleTheme()` returns (it is a total function, so
it cannot throw) and leaves the whole auth state — in particular the
in-memory `currentTheme` and the persisted `iot_theme` key — unchanged. -/
theorem c10_toggleTheme_no_op_for_non_supervisor (s : AuthState)
    (h : s.user = none ∨ ∃ u, s.user = some u ∧ u.role ≠ config.ROLES_SUPERVISOR) :
    AuthSystem.toggleTheme s = s := by
  rcases h with h | ⟨u, hu, hr⟩
  · simp [AuthSystem.toggleTheme, truthyObj, h]
  · simp [AuthSystem.toggleTheme, truthyObj, AuthSystem.hasRole, hu, hr]

/-- C10 witness: an authenticated operator's `toggleTheme()` call leaves
the state unchanged. -/
theorem c10_toggleTheme_no_op_witness :
    AuthSystem.toggleTheme operadorAuthState = operadorAuthState :=
  c10_toggleTheme_no_op_for_non_supervisor operadorAuthState
    (Or.inr ⟨operadorUser, rfl, by decide⟩)

/-! Application fixtures. -/

/-- A logged-out app state: the login page is active and a supervisor-only
reports page is declared. -/
def unauthAppState : IndustrialMonitorApp.AppState :=
  ⟨none,
    [⟨"dashboard", false, false⟩, ⟨"login", false, true⟩, ⟨"reports", true, false⟩],
    "", none, none, []⟩

/-- An authenticated operator app state with the dashboard active and a
supervisor-only config page declared. -/
def operadorAppState : IndustrialMonitorApp.AppState :=
  ⟨some operadorUser,
    [⟨"dashboard", false, true⟩, ⟨"config", true, false⟩],
    "dashboard", none, none, []⟩

/-- A logged-out app state in which the dashboard page is still marked
active. -/
def loggedOutActiveDashState : IndustrialMonitorApp.AppState :=
  ⟨none, [⟨"dashboard", false, true⟩], "dashboard", none, none, []⟩

/-! Claim C3. -/

/-- C3: for every requested view other than `login`, if the session is
not authenticated (`this.user` is null) then `navigateTo` redirects to
the `login` view; the only state change is the hash assignment, so the
requested view is not activated and no page module hook runs (the result
is not `activate`). -/
theorem c3_unauthenticated_redirects_to_login (st : IndustrialMonitorApp.AppState)
    (target : String) (h1 : target ≠ "login") (h2 : st.user = none) :
    IndustrialMonitorApp.navigateTo st target =
      (.redirect "login", { st with hash := "login" }) := by
  simp [IndustrialMonitorApp.navigateTo, h1, h2, truthyObj]

/-- C3 witness: requesting `reports` while logged out redirects to
`login` and only changes the hash. -/
theorem c3_unauthenticated_redirects_witness :
    IndustrialMonitorApp.navigateTo unauthAppState "reports" =
      (.redirect "login", { unauthAppState with hash := "login" }) :=
  c3_unauthenticated_redirects_to_login unauthAppState "reports" (by decide) rfl

/-! Claim C4. -/

/-- C4: for every authenticated session whose user's role is not
supervisor, requesting a declared view carrying the `supervisor-only`
class makes `navigateTo` redirect to the `dashboard` view; the only
state change is the hash assignment, so the requested view is not
activated. -/
theorem c4_supervisor_only_redirects_to_dashboard (st : IndustrialMonitorApp.AppState)
    (target : String) (u : User) (p : IndustrialMonitorApp.Page)
    (hu : st.user = some u) (hrole : u.role ≠ config.ROLES_SUPERVISOR)
    (hp : IndustrialMonitorApp.findPage st.pages target = some p)
    (hso : p.supervisorOnly = true) :
    IndustrialMonitorApp.navigateTo st target =
      (.redirect "dashboard", { st with hash := "dashboard" }) := by
  have htr : truthyObj st.user = true := by
    simp [truthyObj, hu]
  have hns : IndustrialMonitorApp.notSupervisor st.user = true := by
    simp [IndustrialMonitorApp.notSupervisor, hu, hrole]
  simp [IndustrialMonitorApp.navigateTo, htr, hp, hso, hns]

/-- C4 witness: an operator requesting the supervisor-only `config` view
is redirected to `dashboard`. -/
theorem c4_supervisor_only_redirects_witness :
    IndustrialMonitorApp.navigateTo operadorAppState "config" =
      (.redirect "dashboard", { operadorAppState with hash := "dashboard" }) :=
  c4_supervisor_only_redirects_to_dashboard operadorAppState "config" operadorUser
    ⟨"config", true, false⟩ rfl (by decide) rfl rfl

/-! Claim C7. -/

/-- C7 counterexample: at startup with no authenticated session and the
location fragment `reports`, `setupRouting` neither forces the hash to
`login` nor navigates anywhere — it only forces `login` when the
fragment is absent or is exactly `dashboard`, contradicting "forced to
login regardless of the current fragment". -/
theorem c7_unauth_deep_link_not_forced :
    IndustrialMonitorApp.setupRoutingInitial none "reports" = .idle ∧
    IndustrialMonitorApp.setupRoutingInitial none "reports" ≠ .setHashLogin := by
  decide

/-- C7 amended: at startup, when the session is authenticated the
initial resolution navigates to the current fragment, defaulting to
`dashboard` when the fragment is absent; when the session is not
authenticated the hash is forced to `login` only when the fragment is
absent or is exactly `dashboard`, and otherwise nothing happens. -/
theorem c7_startup_resolution (u : User) (fragment : String) :
    (IndustrialMonitorApp.setupRoutingInitial (some u) "" = .navigate "dashboard") ∧
    (fragment ≠ "" →
      IndustrialMonitorApp.setupRoutingInitial (some u) fragment = .navigate fragment) ∧
    (IndustrialMonitorApp.setupRoutingInitial none "" = .setHashLogin) ∧
    (IndustrialMonitorApp.setupRoutingInitial none "dashboard" = .setHashLogin) ∧
    (fragment ≠ "" → fragment ≠ "dashboard" →
      IndustrialMonitorApp.setupRoutingInitial none fragment = .idle) := by
  refine ⟨rfl, ?_, rfl, rfl, ?_⟩
  · intro h
    simp [IndustrialMonitorApp.setupRoutingInitial, truthyObj, h]
  · intro h1 h2
    simp [IndustrialMonitorApp.setupRoutingInitial, truthyObj, h1, h2]

/-- C7 witness: concrete startup resolutions — an authenticated user
with no fragment goes to `dashboard` and with fragment `alerts` goes to
`alerts`; logged out, the empty and `dashboard` fragments force `login`
while the `alerts` fragment leaves everything untouched. -/
theorem c7_startup_resolution_witness :
    IndustrialMonitorApp.setupRoutingInitial (some operadorUser) "" = .navigate "dashboard" ∧
    IndustrialMonitorApp.setupRoutingInitial (some operadorUser) "alerts" = .navigate "alerts" ∧
    IndustrialMonitorApp.setupRoutingInitial none "" = .setHashLogin ∧
    IndustrialMonitorApp.setupRoutingInitial none "dashboard" = .setHashLogin ∧
    IndustrialMonitorApp.setupRoutingInitial none "alerts" = .idle :=
  ⟨(c7_startup_resolution operadorUser "alerts").1,
   (c7_startup_resolution operadorUser "alerts").2.1 (by decide),
   (c7_startup_resolution operadorUser "alerts").2.2.1,
   (c7_startup_resolution operadorUser "alerts").2.2.2.1,
   (c7_startup_resolution operadorUser "alerts").2.2.2.2 (by decide) (by decide)⟩

/-! Claim C8. -/

/-- C8 counterexample: requesting `dashboard` while the dashboard page
is already the active view but the session is unauthenticated is not a
no-op — the authentication guard runs first and redirects to `login`,
changing the hash.  So "every navigation request whose target view is
already active is a no-op" fails as stated. -/
theorem c8_active_target_not_always_noop :
    (IndustrialMonitorApp.findPage loggedOutActiveDashState.pages "dashboard").map
      IndustrialMonitorApp.Page.active = some true ∧
    IndustrialMonitorApp.navigateTo loggedOutActiveDashState "dashboard" ≠
      (.noop, loggedOutActiveDashState) ∧
    (IndustrialMonitorApp.navigateTo loggedOutActiveDashState "dashboard").1 =
      .redirect "login" := by
  decide

/-- C8 amended: for every navigation request that passes the two guards
evaluated before the active-view check — the target is `login` or the
session is authenticated, and the target page is not supervisor-only or
the user is a supervisor — if the target view is already the active view
then `navigateTo` returns with the state completely unchanged and
without an `activate` outcome, so the per-view module hook is not
re-invoked. -/
theorem c8_active_target_noop (st : IndustrialMonitorApp.AppState) (target : String)
    (p : IndustrialMonitorApp.Page)
    (hp : IndustrialMonitorApp.findPage st.pages target = some p)
    (hactive : p.active = true)
    (hauth : target = "login" ∨ st.user ≠ none)
    (hperm : p.supervisorOnly = false ∨
      ∃ u, st.user = some u ∧ u.role = config.ROLES_SUPERVISOR) :
    IndustrialMonitorApp.navigateTo st target = (.noop, st) := by
  have hcond1 : (target != "login" && !truthyObj st.user) = false := by
    rcases hauth with h | h
    · simp [h]
    · cases hu : st.user with
      | none => exact absurd hu h
      | some u => simp [truthyObj, hu]
  have hcond2 : (p.supervisorOnly && IndustrialMonitorApp.notSupervisor st.user) = false := by
    rcases hperm with h | ⟨u, hu, hr⟩
    · simp [h]
    · simp [IndustrialMonitorApp.notSupervisor, hu, hr]
  simp [IndustrialMonitorApp.navigateTo, hcond1, hp, hcond2, hactive]

/-- C8 witness: an authenticated operator requesting `dashboard` while
the dashboard is already active gets the no-op outcome with the state
unchanged. -/
theorem c8_active_target_noop_witness :
    IndustrialMonitorApp.navigateTo operadorAppState "dashboard" =
      (.noop, operadorAppState) :=
  c8_active_target_noop operadorAppState "dashboard" ⟨"dashboard", false, true⟩
    rfl rfl (Or.inr (by decide)) (Or.inl rfl)

/-! Claim C9. -/

/-- One registry entry contributes its name to the destroy trace exactly
when it has a `destroy` method, whether or not that method throws. -/
theorem tryDestroy_eq (m : IndustrialMonitorApp.Module) :
    IndustrialMonitorApp.tryDestroy m = if m.hasDestroy then [m.name] else [] := by
  by_cases hd : m.hasDestroy
  · cases hf : m.destroyFails <;>
      simp [IndustrialMonitorApp.tryDestroy, IndustrialMonitorApp.destroyModule, hd, hf]
  · simp [IndustrialMonitorApp.tryDestroy, hd]

/-- The destroy trace of the registry fold: every module with a
`destroy` method is invoked, in registration order. -/
theorem cleanup_log_eq (l : List IndustrialMonitorApp.Module) (acc : List String) :
    l.foldl (fun acc m => acc ++ IndustrialMonitorApp.tryDestroy m) acc =
      acc ++ (l.filter (fun m => m.hasDestroy)).map (fun m => m.name) := by
  induction l generalizing acc with
  | nil => simp
  | cons m t ih =>
    rw [List.foldl_cons, ih, tryDestroy_eq]
    by_cases hd : m.hasDestroy <;> simp [hd, List.filter_cons]

/-- C9: `cleanup()` never throws (every per-module `destroy` is wrapped
in try/catch, so it is a total function), leaves the module registry
empty, leaves it empty again when called a second time in succession,
and its destroy trace covers every registered module that has a
`destroy` method in registration order — independently of which
`destroy` calls throw, so one module's failing `destroy` does not
prevent the remaining modules from being torn down. -/
theorem c9_cleanup_twice_empty_and_complete (st : IndustrialMonitorApp.AppState) :
    (IndustrialMonitorApp.cleanup st).1.modules = [] ∧
    (IndustrialMonitorApp.cleanup (IndustrialMonitorApp.cleanup st).1).1.modules = [] ∧
    (IndustrialMonitorApp.cleanup st).2 =
      (st.modules.filter (fun m => m.hasDestroy)).map (fun m => m.name) := by
  refine ⟨rfl, rfl, ?_⟩
  simp only [IndustrialMonitorApp.cleanup]
  simpa using cleanup_log_eq st.modules []
